import Mathlib

/-!
Shallow embedding of the TernakPro livestock-recommendation service
(`src/api/recommend.py` and `src/api/healt.py`) and proofs about it.

Python floats are modelled as exact rationals (ℚ); strings as `String`.
Side effects of the source are only `print` logging, which the embedding
drops; every modelled function is otherwise pure in the source.
-/

namespace TernakPro

/-- The `input_data` dict built in `recommend_livestock` (recommend.py lines
213-220).  All six keys are always present, so the `input_data.get(k, d)`
calls in the prediction functions always find the key and the defaults are
dead; the embedding therefore reads fields directly. -/
structure InputData where
  region : String
  land_size : ℚ
  goal : String
  available_feed : String
  time_availability : String
  experience : String
deriving DecidableEq

/-- The request body (pydantic `RecommendationRequest`, recommend.py lines
152-158).  Field defaults of the validation layer are out of scope; a value
of this type is an already-validated request. -/
structure RecommendationRequest where
  region : String
  land_size : ℚ
  goal : String
  available_feed : String
  time_availability : String
  experience : String
deriving DecidableEq

/-- The prediction dict returned by `_predict_with_model` /
`_predict_with_rules` (recommend.py lines 99-104 and 141-146). -/
structure Prediction where
  recommended_animal : String
  success_rate : ℚ
  roi : ℚ
  market_demand : ℚ
deriving DecidableEq

/-- `experience_multiplier.get(experience, 0.8)` over the dict
`{'pemula': 0.8, 'menengah': 0.9, 'ahli': 1.0}` (recommend.py lines
113-119). -/
def experience_multiplier (experience : String) : ℚ :=
  if experience = "pemula" then 0.8
  else if experience = "menengah" then 0.9
  else if experience = "ahli" then 1.0
  else 0.8

/-- The `(animal, success_rate)` pair assigned by the if/elif chain of
`_predict_with_rules` (recommend.py lines 121-139); the source assigns the
two variables inside the branches and builds the result dict afterwards. -/
def rule_choice (input_data : InputData) : String × ℚ :=
  let multiplier := experience_multiplier input_data.experience
  if input_data.goal = "daging" then
    if input_data.land_size < 100 then ("ayam_pedaging", 0.85 * multiplier)
    else if input_data.land_size < 200 then ("kambing", 0.75 * multiplier)
    else ("sapi_potong", 0.80 * multiplier)
  else if input_data.goal = "telur" then ("ayam_petelur", 0.78 * multiplier)
  else if input_data.goal = "susu" then ("sapi_perah", 0.82 * multiplier)
  else ("ayam_pedaging", 0.70 * multiplier)

/-- `_predict_with_rules` (recommend.py lines 106-146). -/
def predict_with_rules (input_data : InputData) : Prediction :=
  let sel := rule_choice input_data
  { recommended_animal := sel.1
    success_rate := sel.2
    roi := sel.2 * 0.4
    market_demand := 0.8 + sel.2 * 0.2 }

/-- The singleton dict `result` of `_predict_with_model` (recommend.py lines
82-94), read back as `animal = list(result.keys())[0]`,
`success_rate = result[animal]` (lines 96-97): a `(key, value)` pair. -/
def model_choice (input_data : InputData) : String × ℚ :=
  if input_data.goal = "daging" then
    if input_data.land_size < 100 then ("ayam_pedaging", 0.85)
    else if input_data.land_size < 200 then ("kambing", 0.78)
    else ("sapi_potong", 0.82)
  else if input_data.goal = "telur" then ("ayam_petelur", 0.80)
  else if input_data.goal = "susu" then ("sapi_perah", 0.75)
  else ("ayam_pedaging", 0.70)

/-- `_predict_with_model` (recommend.py lines 73-104).  Despite its name it
never consults the loaded artifact: the body is the hard-coded table above. -/
def predict_with_model (input_data : InputData) : Prediction :=
  let sel := model_choice input_data
  { recommended_animal := sel.1
    success_rate := sel.2
    roi := sel.2 * 0.4
    market_demand := 0.8 + sel.2 * 0.2 }

/-- `LivestockModel.predict` (recommend.py lines 61-71).  `is_loaded` stands
for the truthiness test `self.is_loaded and self.model`: the source sets
`is_loaded = True` only together with a non-None `model`, so one boolean
captures the state.  Neither branch raises in the source (both are total
arithmetic and string dispatch), so the `except` fallback at line 71 is dead
and the embedding is the plain dispatch. -/
def predict (is_loaded : Bool) (input_data : InputData) : Prediction :=
  if is_loaded then predict_with_model input_data else predict_with_rules input_data

/-- One entry of the `ANIMAL_INFO` table (recommend.py lines 161-202). -/
structure AnimalProfile where
  name : String
  initial_cost : ℤ
  description : String
  feed_requirements : List String
  health_risks : List String
  tips : List String
deriving DecidableEq

def ayam_pedaging_info : AnimalProfile :=
  { name := "Ayam Pedaging"
    initial_cost := 5000000
    description := "Ayam pedaging cocok untuk pemula dengan keuntungan cepat dalam 30-40 hari"
    feed_requirements := ["Konsentrat: 0.15kg/ekor/hari", "Jagung: 0.1kg/ekor/hari", "Vitamin: sesuai kebutuhan"]
    health_risks := ["Penyakit ND (Newcastle Disease)", "Penyakit AI (Avian Influenza)", "Gumboro"]
    tips := ["Vaksinasi teratur", "Jaga kebersihan kandang", "Kontrol suhu dan ventilasi"] }

def ayam_petelur_info : AnimalProfile :=
  { name := "Ayam Petelur"
    initial_cost := 6000000
    description := "Ayam petelur memberikan pendapatan rutin dari telur dengan masa produktif 1-2 tahun"
    feed_requirements := ["Konsentrat layer: 0.12kg/ekor/hari", "Kalsium: 0.05kg/ekor/hari", "Vitamin: sesuai kebutuhan"]
    health_risks := ["Penyakit CRD", "Tetelo", "Cacingan"]
    tips := ["Pencahayaan cukup 14-16 jam/hari", "Pemberian vitamin rutin", "Kandang bersih dan kering"] }

def sapi_potong_info : AnimalProfile :=
  { name := "Sapi Potong"
    initial_cost := 25000000
    description := "Sapi potong memberikan keuntungan tinggi tetapi membutuhkan modal besar dan lahan luas"
    feed_requirements := ["Rumput: 30kg/ekor/hari", "Konsentrat: 5kg/ekor/hari", "Mineral: sesuai kebutuhan"]
    health_risks := ["Penyakit mulut dan kuku", "Antraks", "Cacingan"]
    tips := ["Kandang luas dengan drainase baik", "Perhatikan sanitasi kandang", "Vaksinasi rutin"] }

def kambing_info : AnimalProfile :=
  { name := "Kambing"
    initial_cost := 8000000
    description := "Kambing mudah dipelihara dan memiliki permintaan pasar yang stabil"
    feed_requirements := ["Rumput: 10kg/ekor/hari", "Konsentrat: 1kg/ekor/hari", "Air minum: secukupnya"]
    health_risks := ["Cacingan", "Scabies", "Pneumonia"]
    tips := ["Kandang kering dan bersih", "Pemberian pakan berkualitas", "Perhatikan kesehatan kaki"] }

def sapi_perah_info : AnimalProfile :=
  { name := "Sapi Perah"
    initial_cost := 30000000
    description := "Sapi perah memberikan penghasilan rutin dari susu dengan perawatan intensif"
    feed_requirements := ["Hijauan: 40kg/ekor/hari", "Konsentrat: 6kg/ekor/hari", "Mineral: sesuai kebutuhan"]
    health_risks := ["Mastitis", "Metritis", "Cacingan"]
    tips := ["Kandang bersih dan nyaman", "Pemerahan yang hygienis", "Pakan berkualitas tinggi"] }

/-- Key lookup in the `ANIMAL_INFO` dict (recommend.py lines 161-202):
`some` when the key is one of the five entries, `none` otherwise. -/
def ANIMAL_INFO_find (key : String) : Option AnimalProfile :=
  if key = "ayam_pedaging" then some ayam_pedaging_info
  else if key = "ayam_petelur" then some ayam_petelur_info
  else if key = "sapi_potong" then some sapi_potong_info
  else if key = "kambing" then some kambing_info
  else if key = "sapi_perah" then some sapi_perah_info
  else none

/-- `ANIMAL_INFO.get(animal_type, ANIMAL_INFO['ayam_pedaging'])`
(recommend.py line 227). -/
def ANIMAL_INFO_get (key : String) : AnimalProfile :=
  (ANIMAL_INFO_find key).getD ayam_pedaging_info

/-- Python `int(x)` on a float: truncation toward zero. -/
def pyInt (q : ℚ) : ℤ :=
  if 0 ≤ q then ⌊q⌋ else ⌈q⌉

/-- Rounding half to even of a rational to an integer (the tie rule of
Python's `round`; the embedding works in exact rationals, so the binary
floating-point representation error of the source is not modelled). -/
def round_half_even (q : ℚ) : ℤ :=
  if q - (⌊q⌋ : ℚ) = 1 / 2 then (if ⌊q⌋ % 2 = 0 then ⌊q⌋ else ⌊q⌋ + 1)
  else round q

/-- Python `round(x, 1)` (recommend.py lines 237-239). -/
def pyRound1 (q : ℚ) : ℚ :=
  (round_half_even (q * 10) : ℚ) / 10

/-- Python f-string `:.1f` formatting of a float, modelled as rounding to one
decimal and printing `<units>.<tenth>` (nonnegative arguments only arise). -/
def fmt1 (q : ℚ) : String :=
  let n := round_half_even (q * 10)
  toString (n / 10) ++ "." ++ toString (n % 10)

/-- Python `str` of a float inside an f-string, modelled as `<num>.0` for
whole values and the exact rational otherwise (the source only ever
interpolates `request.land_size` this way, inside explanation text). -/
def pyFloatStr (q : ℚ) : String :=
  if q.den = 1 then toString q.num ++ ".0" else toString q

/-- ASCII lowercase of one character (Python `str.lower` is full Unicode,
but every string it is applied to in the source is ASCII). -/
def lowerChar (c : Char) : Char :=
  if 'A' ≤ c ∧ c ≤ 'Z' then Char.ofNat (c.toNat + 32) else c

/-- Python `str.lower()` on the ASCII strings the source applies it to. -/
def py_lower (s : String) : String :=
  ⟨s.data.map lowerChar⟩

/-- Module-level `_generate_explanation` (recommend.py lines 253-263):
`explanations.get(animal_name.lower(), fallback)` over a dict keyed by the
underscore animal keys.  `animal_name` is the display name at the only call
site, so `.lower()` yields e.g. "ayam pedaging" with a space. -/
def generate_explanation (animal_name : String) (request : RecommendationRequest)
    (prediction : Prediction) : String :=
  if py_lower animal_name = "ayam_pedaging" then
    "Ayam pedaging direkomendasikan untuk lahan " ++ pyFloatStr request.land_size ++
      "m² dengan tujuan " ++ request.goal ++ ". Cocok untuk " ++ request.experience ++
      " dengan ROI " ++ fmt1 (prediction.roi * 100) ++ "%"
  else if py_lower animal_name = "ayam_petelur" then
    "Ayam petelur ideal untuk produksi telur dengan kesesuaian " ++
      fmt1 (prediction.success_rate * 100) ++ "%. Permintaan pasar stabil di " ++
      request.region
  else if py_lower animal_name = "sapi_potong" then
    "Sapi potong cocok untuk lahan luas dengan potensi keuntungan tinggi. ROI mencapai " ++
      fmt1 (prediction.roi * 100) ++ "%"
  else if py_lower animal_name = "kambing" then
    "Kambing mudah dipelihara dan sesuai untuk " ++ request.experience ++
      ". Permintaan pasar " ++ fmt1 (prediction.market_demand * 100) ++ "%"
  else if py_lower animal_name = "sapi_perah" then
    "Sapi perah memberikan penghasilan rutin dari susu. Cocok untuk peternak dengan pengalaman"
  else
    animal_name ++ " direkomendasikan berdasarkan analisis kondisi Anda"

/-- The expression `self._generate_explanation(...)` at recommend.py line
234: `recommend_livestock` is a module-level function, `self` is unbound
there, so evaluating the expression raises
`NameError: name 'self' is not defined` before any call happens. -/
def self_generate_explanation (_animal_name : String) (_request : RecommendationRequest)
    (_prediction : Prediction) : Except String String :=
  Except.error "name 'self' is not defined"

/-- The `data` dict of the response (recommend.py lines 232-245). -/
structure ResponseData where
  jenis_hewan : String
  alasan : String
  biaya_awal : ℤ
  potensi_keuntungan : ℤ
  roi : ℚ
  kesesuaian_kondisi : ℚ
  permintaan_pasar : ℚ
  deskripsi : String
  kebutuhan_pakan : List String
  resiko_kesehatan : List String
  tips : List String
  model_used : String
deriving DecidableEq

/-- The `input_data` dict built at recommend.py lines 213-220. -/
def input_data_of (request : RecommendationRequest) : InputData :=
  { region := request.region
    land_size := request.land_size
    goal := request.goal
    available_feed := request.available_feed
    time_availability := request.time_availability
    experience := request.experience }

/-- The body of the `try` block of `recommend_livestock` (recommend.py lines
212-248), with Python exceptions as `Except.error`.  The response dict
literal evaluates its values in order; the `alasan` value raises a
`NameError` (see `self_generate_explanation`), so the fields after it are
never reached in the source. -/
def try_recommend (is_loaded : Bool) (request : RecommendationRequest) :
    Except String ResponseData := do
  let input_data := input_data_of request
  let prediction := predict is_loaded input_data
  let animal_type := prediction.recommended_animal
  let animal_details := ANIMAL_INFO_get animal_type
  let alasan ← self_generate_explanation animal_details.name request prediction
  pure
    { jenis_hewan := animal_details.name
      alasan := alasan
      biaya_awal := animal_details.initial_cost
      potensi_keuntungan := pyInt ((animal_details.initial_cost : ℚ) * prediction.roi)
      roi := pyRound1 (prediction.roi * 100)
      kesesuaian_kondisi := pyRound1 (prediction.success_rate * 100)
      permintaan_pasar := pyRound1 (prediction.market_demand * 100)
      deskripsi := animal_details.description
      kebutuhan_pakan := animal_details.feed_requirements
      resiko_kesehatan := animal_details.health_risks
      tips := animal_details.tips
      model_used := if is_loaded then "ml_model" else "rule_based" }

/-- The outcome of the POST /api/recommend handler: HTTP 200 with
`{success: true, data: ...}`, or an `HTTPException(status_code, detail)`. -/
inductive HandlerResult where
  | success (data : ResponseData)
  | httpException (status_code : ℕ) (detail : String)
deriving DecidableEq

/-- `recommend_livestock` (recommend.py lines 209-251): the `try` body on
success becomes HTTP 200 `{success: true, data}`; any exception is caught
and re-raised as `HTTPException(500, "Error processing request: <msg>")`. -/
def recommend_livestock (is_loaded : Bool) (request : RecommendationRequest) :
    HandlerResult :=
  match try_recommend is_loaded request with
  | Except.ok data => HandlerResult.success data
  | Except.error msg => HandlerResult.httpException 500 ("Error processing request: " ++ msg)

/-- The response `data` dict exactly as written at recommend.py lines
232-245, except that `alasan` is taken from the module-level
`_generate_explanation` that the (erroneous) `self._generate_explanation`
call at line 234 names: the assembled response the source describes, usable
even though the handler as written never completes it. -/
def assemble_data (is_loaded : Bool) (request : RecommendationRequest) : ResponseData :=
  let prediction := predict is_loaded (input_data_of request)
  let animal_details := ANIMAL_INFO_get prediction.recommended_animal
  { jenis_hewan := animal_details.name
    alasan := generate_explanation animal_details.name request prediction
    biaya_awal := animal_details.initial_cost
    potensi_keuntungan := pyInt ((animal_details.initial_cost : ℚ) * prediction.roi)
    roi := pyRound1 (prediction.roi * 100)
    kesesuaian_kondisi := pyRound1 (prediction.success_rate * 100)
    permintaan_pasar := pyRound1 (prediction.market_demand * 100)
    deskripsi := animal_details.description
    kebutuhan_pakan := animal_details.feed_requirements
    resiko_kesehatan := animal_details.health_risks
    tips := animal_details.tips
    model_used := if is_loaded then "ml_model" else "rule_based" }

/-- The writable fields of `LivestockModel` the health endpoint reads
(recommend.py lines 27-31). -/
structure LivestockModelState where
  is_loaded : Bool
  error_message : Option String
deriving DecidableEq

/-- A JSON value as far as the health bodies need one. -/
inductive JVal where
  | str (s : String)
  | bool (b : Bool)
  | null
deriving DecidableEq

/-- `health_check` of recommend.py (lines 265-274) as
(HTTP status, body fields in order).  FastAPI returns a plain dict as HTTP
200; `now_iso` stands for `pd.Timestamp.now().isoformat()`, the one
time-dependent value. -/
def health_check (m : LivestockModelState) (now_iso : String) :
    ℕ × List (String × JVal) :=
  (200,
    [("status", JVal.str "healthy"),
     ("model_loaded", JVal.bool m.is_loaded),
     ("model_error", match m.error_message with
        | none => JVal.null
        | some e => JVal.str e),
     ("service", JVal.str "TernakPro AI Recommendation API"),
     ("timestamp", JVal.str now_iso)])

/-- `health_check` of healt.py (lines 5-7): a separate FastAPI app whose
health body has only two fields; also always HTTP 200. -/
def healt_health_check : ℕ × List (String × JVal) :=
  (200,
    [("status", JVal.str "healthy"),
     ("service", JVal.str "TernakPro AI Health Check")])

/-! ### Helper lemmas -/

theorem experience_multiplier_cases (e : String) :
    experience_multiplier e = 0.8 ∨ experience_multiplier e = 0.9 ∨
      experience_multiplier e = 1.0 := by
  unfold experience_multiplier
  split_ifs <;> simp

theorem experience_multiplier_bounds (e : String) :
    (0.8 : ℚ) ≤ experience_multiplier e ∧ experience_multiplier e ≤ 1 := by
  rcases experience_multiplier_cases e with h | h | h <;> rw [h] <;> norm_num

theorem rule_choice_snd_bounds (i : InputData) :
    0 ≤ (rule_choice i).2 ∧ (rule_choice i).2 ≤ 1 := by
  obtain ⟨hm0, hm1⟩ := experience_multiplier_bounds i.experience
  have hm0' : (0 : ℚ) ≤ experience_multiplier i.experience := by linarith
  unfold rule_choice
  split_ifs <;> constructor <;> simp only [] <;> nlinarith

theorem model_choice_snd_bounds (i : InputData) :
    0 ≤ (model_choice i).2 ∧ (model_choice i).2 ≤ 1 := by
  unfold model_choice
  split_ifs <;> constructor <;> norm_num

theorem predict_success_rate_bounds (b : Bool) (i : InputData) :
    0 ≤ (predict b i).success_rate ∧ (predict b i).success_rate ≤ 1 := by
  cases b with
  | false => exact rule_choice_snd_bounds i
  | true => exact model_choice_snd_bounds i

theorem predict_roi_eq (b : Bool) (i : InputData) :
    (predict b i).roi = (predict b i).success_rate * 0.4 := by
  cases b <;> rfl

theorem predict_market_demand_eq (b : Bool) (i : InputData) :
    (predict b i).market_demand = 0.8 + (predict b i).success_rate * 0.2 := by
  cases b <;> rfl

theorem ANIMAL_INFO_get_cost_nonneg (key : String) :
    0 ≤ (ANIMAL_INFO_get key).initial_cost := by
  unfold ANIMAL_INFO_get ANIMAL_INFO_find
  split_ifs <;> norm_num [ayam_pedaging_info, ayam_petelur_info, sapi_potong_info,
    kambing_info, sapi_perah_info]

theorem pyInt_eq_floor_of_nonneg (q : ℚ) (h : 0 ≤ q) : pyInt q = ⌊q⌋ := by
  unfold pyInt
  exact if_pos h

/-! ### Claims -/

/-- C1: on the rule-based path, the recommended animal and the base rate are
determined by goal and land_size exactly as: daging with land_size < 100 →
ayam_pedaging, base 0.85; daging with 100 ≤ land_size < 200 → kambing, base
0.75; daging with land_size ≥ 200 → sapi_potong, base 0.80; telur →
ayam_petelur, base 0.78; susu → sapi_perah, base 0.82; any other goal →
ayam_pedaging, base 0.70 (the returned success_rate is base times the
experience multiplier). -/
theorem c1_rule_based_animal_table (i : InputData) :
    (i.goal = "daging" → i.land_size < 100 →
      (predict_with_rules i).recommended_animal = "ayam_pedaging" ∧
      (predict_with_rules i).success_rate = 0.85 * experience_multiplier i.experience) ∧
    (i.goal = "daging" → 100 ≤ i.land_size → i.land_size < 200 →
      (predict_with_rules i).recommended_animal = "kambing" ∧
      (predict_with_rules i).success_rate = 0.75 * experience_multiplier i.experience) ∧
    (i.goal = "daging" → 200 ≤ i.land_size →
      (predict_with_rules i).recommended_animal = "sapi_potong" ∧
      (predict_with_rules i).success_rate = 0.80 * experience_multiplier i.experience) ∧
    (i.goal = "telur" →
      (predict_with_rules i).recommended_animal = "ayam_petelur" ∧
      (predict_with_rules i).success_rate = 0.78 * experience_multiplier i.experience) ∧
    (i.goal = "susu" →
      (predict_with_rules i).recommended_animal = "sapi_perah" ∧
      (predict_with_rules i).success_rate = 0.82 * experience_multiplier i.experience) ∧
    (i.goal ≠ "daging" → i.goal ≠ "telur" → i.goal ≠ "susu" →
      (predict_with_rules i).recommended_animal = "ayam_pedaging" ∧
      (predict_with_rules i).success_rate = 0.70 * experience_multiplier i.experience) := by
  unfold predict_with_rules rule_choice
  refine ⟨?_, ?_, ?_, ?_, ?_, ?_⟩ <;> intros <;> split_ifs <;> simp_all <;> linarith

/-- C1 witness: a concrete daging request on 50 units of land gets
ayam_pedaging with success rate 0.85 times the ahli multiplier. -/
theorem c1_rule_based_animal_table_witness :
    (predict_with_rules ⟨"jawa_barat", 50, "daging", "rumput", "penuh", "ahli"⟩).recommended_animal
        = "ayam_pedaging" ∧
    (predict_with_rules ⟨"jawa_barat", 50, "daging", "rumput", "penuh", "ahli"⟩).success_rate
        = 0.85 * experience_multiplier "ahli" :=
  (c1_rule_based_animal_table ⟨"jawa_barat", 50, "daging", "rumput", "penuh", "ahli"⟩).1
    rfl (by norm_num)

/-- The base success rate the if/elif chain of `_predict_with_rules` picks
before the experience multiplier is applied (recommend.py lines 121-139),
factored out of `rule_choice` to state C2. -/
def rule_base (i : InputData) : ℚ :=
  if i.goal = "daging" then
    if i.land_size < 100 then 0.85
    else if i.land_size < 200 then 0.75
    else 0.80
  else if i.goal = "telur" then 0.78
  else if i.goal = "susu" then 0.82
  else 0.70

/-- C2: on the rule-based path the experience multiplier is 0.8 for pemula,
0.9 for menengah, 1.0 for ahli and 0.8 for anything else, and the returned
success_rate is always the branch's base rate times that multiplier. -/
theorem c2_success_rate_is_base_times_multiplier :
    experience_multiplier "pemula" = 0.8 ∧
    experience_multiplier "menengah" = 0.9 ∧
    experience_multiplier "ahli" = 1.0 ∧
    (∀ e : String, e ≠ "pemula" → e ≠ "menengah" → e ≠ "ahli" →
      experience_multiplier e = 0.8) ∧
    (∀ i : InputData,
      (predict_with_rules i).success_rate = rule_base i * experience_multiplier i.experience) := by
  refine ⟨rfl, rfl, rfl, ?_, ?_⟩
  · intro e h1 h2 h3
    unfold experience_multiplier
    rw [if_neg h1, if_neg h2, if_neg h3]
  · intro i
    unfold predict_with_rules rule_choice rule_base
    split_ifs <;> rfl

/-- C2 witness: an unrecognized experience value gets the default multiplier
0.8. -/
theorem c2_success_rate_is_base_times_multiplier_witness :
    experience_multiplier "berpengalaman" = 0.8 :=
  c2_success_rate_is_base_times_multiplier.2.2.2.1 "berpengalaman"
    (by decide) (by decide) (by decide)

/-- C3: every prediction of either path satisfies roi = success_rate × 0.4,
market_demand = 0.8 + success_rate × 0.2, success_rate ∈ [0, 1] and
market_demand ∈ [0.8, 1.0]; roi and market_demand are computed from
success_rate, never independently. -/
theorem c3_prediction_invariants (b : Bool) (i : InputData) :
    (predict b i).roi = (predict b i).success_rate * 0.4 ∧
    (predict b i).market_demand = 0.8 + (predict b i).success_rate * 0.2 ∧
    0 ≤ (predict b i).success_rate ∧ (predict b i).success_rate ≤ 1 ∧
    0.8 ≤ (predict b i).market_demand ∧ (predict b i).market_demand ≤ 1 := by
  obtain ⟨h0, h1⟩ := predict_success_rate_bounds b i
  refine ⟨predict_roi_eq b i, predict_market_demand_eq b i, h0, h1, ?_, ?_⟩ <;>
    rw [predict_market_demand_eq b i] <;> linarith

/-- C9: `_predict_with_model` and `_predict_with_rules` pick the recommended
animal from the identical (goal, land_size) rule table, so they agree on the
animal key for every input; both are embedded as pure functions because the
source bodies are pure (their only effect is `print` logging in callers). -/
theorem c9_model_and_rules_same_animal (i : InputData) :
    (predict_with_model i).recommended_animal = (predict_with_rules i).recommended_animal := by
  unfold predict_with_model predict_with_rules model_choice rule_choice
  split_ifs <;> rfl

/-- C10: the prediction depends only on goal, land_size and experience —
two inputs agreeing on those three fields get identical predictions on
either path, whatever their region, available_feed or time_availability. -/
theorem c10_prediction_ignores_other_fields (b : Bool) (i j : InputData)
    (hg : i.goal = j.goal) (hl : i.land_size = j.land_size)
    (he : i.experience = j.experience) :
    predict b i = predict b j := by
  cases b
  · show predict_with_rules i = predict_with_rules j
    unfold predict_with_rules rule_choice
    rw [hg, hl, he]
  · show predict_with_model i = predict_with_model j
    unfold predict_with_model model_choice
    rw [hg, hl]

/-- C10 witness: two concrete inputs differing only in region, feed and time
availability get the same prediction. -/
theorem c10_prediction_ignores_other_fields_witness :
    predict false ⟨"jawa_barat", 50, "daging", "rumput", "penuh", "ahli"⟩ =
      predict false ⟨"sumatera", 50, "daging", "jagung", "paruh_waktu", "ahli"⟩ :=
  c10_prediction_ignores_other_fields false _ _ rfl rfl rfl

/-- C4 (code bug): the POST /api/recommend handler never returns HTTP 200.
`recommend_livestock` is a module-level function, so the expression
`self._generate_explanation(...)` in its response dict raises
`NameError: name 'self' is not defined` on every request; the handler's
`except` clause turns that into HTTP 500 for every valid request, in both
model states. -/
theorem c4_handler_always_raises_nameerror (b : Bool) (request : RecommendationRequest) :
    recommend_livestock b request =
      HandlerResult.httpException 500
        "Error processing request: name 'self' is not defined" := by
  cases b <;> rfl

/-- C5: the potensi_keuntungan field of the assembled response equals
floor(profile.initial_cost × prediction.roi): the source's `int(...)`
truncation coincides with floor because cost and roi are nonnegative. -/
theorem c5_potensi_keuntungan_is_floor (b : Bool) (request : RecommendationRequest) :
    (assemble_data b request).potensi_keuntungan =
      ⌊((ANIMAL_INFO_get (predict b (input_data_of request)).recommended_animal).initial_cost : ℚ)
        * (predict b (input_data_of request)).roi⌋ := by
  have hroi : 0 ≤ (predict b (input_data_of request)).roi := by
    rw [predict_roi_eq]
    have h := (predict_success_rate_bounds b (input_data_of request)).1
    nlinarith
  have hcost : (0 : ℚ) ≤
      ((ANIMAL_INFO_get (predict b (input_data_of request)).recommended_animal).initial_cost : ℚ) := by
    exact_mod_cast ANIMAL_INFO_get_cost_nonneg _
  have h : (assemble_data b request).potensi_keuntungan =
      pyInt (((ANIMAL_INFO_get (predict b (input_data_of request)).recommended_animal).initial_cost : ℚ)
        * (predict b (input_data_of request)).roi) := rfl
  rw [h]
  exact pyInt_eq_floor_of_nonneg _ (mul_nonneg hcost hroi)

/-- C6: the knowledge-base lookup is total by type (it always yields an
`AnimalProfile`), and any key other than the five known ones resolves to the
ayam_pedaging profile. -/
theorem c6_unknown_key_defaults_to_ayam_pedaging (key : String)
    (h1 : key ≠ "ayam_pedaging") (h2 : key ≠ "ayam_petelur") (h3 : key ≠ "sapi_potong")
    (h4 : key ≠ "kambing") (h5 : key ≠ "sapi_perah") :
    ANIMAL_INFO_get key = ayam_pedaging_info := by
  unfold ANIMAL_INFO_get ANIMAL_INFO_find
  rw [if_neg h1, if_neg h2, if_neg h3, if_neg h4, if_neg h5]
  rfl

/-- C6 witness: the unknown key "bebek" resolves to the ayam_pedaging
profile. -/
theorem c6_unknown_key_defaults_to_ayam_pedaging_witness :
    ANIMAL_INFO_get "bebek" = ayam_pedaging_info :=
  c6_unknown_key_defaults_to_ayam_pedaging "bebek"
    (by decide) (by decide) (by decide) (by decide) (by decide)

/-- C7 (code bug): `_generate_explanation` lowercases the display name it is
handed at the call site, while its template dict is keyed by the underscore
animal keys; "Ayam Pedaging", "Ayam Petelur", "Sapi Potong" and "Sapi Perah"
lowercase to strings with spaces that match no key, so those four animals get
the generic fallback text whatever the request and prediction are; only
"Kambing" (whose display name lowercases to its key) gets its template. -/
theorem c7_templates_unreachable_for_display_names
    (request : RecommendationRequest) (prediction : Prediction) :
    generate_explanation "Ayam Pedaging" request prediction =
      "Ayam Pedaging direkomendasikan berdasarkan analisis kondisi Anda" ∧
    generate_explanation "Ayam Petelur" request prediction =
      "Ayam Petelur direkomendasikan berdasarkan analisis kondisi Anda" ∧
    generate_explanation "Sapi Potong" request prediction =
      "Sapi Potong direkomendasikan berdasarkan analisis kondisi Anda" ∧
    generate_explanation "Sapi Perah" request prediction =
      "Sapi Perah direkomendasikan berdasarkan analisis kondisi Anda" ∧
    generate_explanation "Kambing" request prediction =
      "Kambing mudah dipelihara dan sesuai untuk " ++ request.experience ++
        ". Permintaan pasar " ++ fmt1 (prediction.market_demand * 100) ++ "%" := by
  refine ⟨?_, ?_, ?_, ?_, ?_⟩ <;> rfl

/-- C8 counterexample: the health endpoint of healt.py answers with a body
holding only the fields status and service — model_loaded (like model_error
and timestamp) is absent, refuting the claimed exact five-field body for
that endpoint. -/
theorem c8_healt_body_missing_fields :
    healt_health_check.2.map Prod.fst = ["status", "service"] ∧
    ¬ ("model_loaded" ∈ healt_health_check.2.map Prod.fst) := by
  decide

/-- C8 amended: both health endpoints always answer HTTP 200 regardless of
the model state; the recommend.py endpoint's body has exactly the fields
status (= "healthy"), model_loaded (the load flag), model_error (the load
error string or null), service and timestamp (the formatted current time);
the healt.py endpoint's body has exactly status (= "healthy") and service. -/
theorem c8_health_endpoints_shape (m : LivestockModelState) (now_iso : String) :
    (health_check m now_iso).1 = 200 ∧
    (health_check m now_iso).2.map Prod.fst =
      ["status", "model_loaded", "model_error", "service", "timestamp"] ∧
    (health_check m now_iso).2.lookup "status" = some (JVal.str "healthy") ∧
    (health_check m now_iso).2.lookup "model_loaded" = some (JVal.bool m.is_loaded) ∧
    (health_check m now_iso).2.lookup "model_error" =
      some (match m.error_message with
        | none => JVal.null
        | some e => JVal.str e) ∧
    (health_check m now_iso).2.lookup "timestamp" = some (JVal.str now_iso) ∧
    healt_health_check.1 = 200 ∧
    healt_health_check.2.map Prod.fst = ["status", "service"] ∧
    healt_health_check.2.lookup "status" = some (JVal.str "healthy") := by
  refine ⟨rfl, rfl, rfl, rfl, rfl, rfl, rfl, rfl, rfl⟩

end TernakPro
